import Mathlib

/-!
Verification development for the chem-lab equipment loan application
(`src/app/models.py`).

The repository's source is a pure SQLModel schema module: entity field
declarations with their validation constraints, plus request/response
schemas.  The enums, entities and field constraints below are embedded
directly from `src/app/models.py`.  The loan lifecycle engine itself
(create / approve / reject / cancel / checkout / checkin / mark_late)
is not present in the repository's source; following the specification,
which describes it as the one piece of implied logic, those operations
are modelled from the spec (each such definition is marked
`Modelled from the spec:` in its doc comment).

Timestamps are modelled as natural numbers counting seconds; datetimes
in the source carry no logic beyond ordering and minute differences.
Server-generated timestamp columns (`created_at`, `updated_at`) and
presentation-only fields (images, JSON blobs) are omitted from the
embedded entities since no claim mentions them.
-/

namespace ChemLab

/-- Embeds `UserRole` (src/app/models.py lines 11-16). -/
inductive UserRole where
  | admin
  | kepala_lab
  | laboran
  | dosen
  | mahasiswa
deriving DecidableEq, Repr

/-- Embeds `EquipmentStatus` (src/app/models.py lines 19-23). -/
inductive EquipmentStatus where
  | available
  | in_use
  | maintenance
  | decommissioned
deriving DecidableEq, Repr

/-- Embeds `LoanStatus` (src/app/models.py lines 26-34). -/
inductive LoanStatus where
  | pending
  | needs_head_approval
  | approved
  | rejected
  | cancelled
  | in_use
  | returned
  | late
deriving DecidableEq, Repr

/-- Statuses in the availability-relevant active set
\{pending, needs_head_approval, approved, in_use\} (spec section 4.1). -/
def LoanStatus.isActive : LoanStatus → Bool
  | .pending => true
  | .needs_head_approval => true
  | .approved => true
  | .in_use => true
  | _ => false

/-- Terminal statuses per the spec: rejected, cancelled, returned. -/
def LoanStatus.isTerminal : LoanStatus → Bool
  | .rejected => true
  | .cancelled => true
  | .returned => true
  | _ => false

/-- Embeds the scalar fields of the persisted `User` model
(src/app/models.py lines 54-70).  `npm` and `nip` are Optional with
default None; relationship attributes and server timestamps omitted. -/
structure User where
  id : String
  name : String
  email : String
  role : UserRole
  password_hash : String
  is_active : Bool := true
  is_verified : Bool := false
  npm : Option String := none
  nip : Option String := none
  phone : Option String := none
  lab_id : Option String := none
  must_change_password : Bool := false
deriving DecidableEq, Repr

/-- Declared field constraints of the persisted `User` model: the
max_length bounds on its string columns.  No constraint in the model
relates `npm` or `nip` to `role`. -/
def User.accepted (u : User) : Bool :=
  u.id.length ≤ 36 && u.name.length ≤ 100 && u.email.length ≤ 255 &&
  u.password_hash.length ≤ 255 &&
  (match u.npm with | some s => s.length ≤ 20 | none => true) &&
  (match u.nip with | some s => s.length ≤ 30 | none => true) &&
  (match u.phone with | some s => s.length ≤ 20 | none => true) &&
  (match u.lab_id with | some s => s.length ≤ 36 | none => true)

/-- Embeds the scalar fields of the persisted `Lab` model
(src/app/models.py lines 85-102); `capacity` is declared `ge=1`.
JSON columns (`operating_hours`, `gallery`), file-path columns and
server timestamps omitted. -/
structure Lab where
  id : String
  code : String
  name : String
  location : String
  capacity : Int
  head_id : Option String := none
  contact_person : String
  contact_email : String
  description : String := ""
deriving DecidableEq, Repr

/-- Declared field constraints of the persisted `Lab` model, including
`capacity: int = Field(ge=1)` (src/app/models.py line 92). -/
def Lab.accepted (lab : Lab) : Bool :=
  lab.id.length ≤ 36 && lab.code.length ≤ 10 && lab.name.length ≤ 100 &&
  lab.location.length ≤ 200 && 1 ≤ lab.capacity &&
  (match lab.head_id with | some s => s.length ≤ 36 | none => true) &&
  lab.contact_person.length ≤ 100 && lab.contact_email.length ≤ 255 &&
  lab.description.length ≤ 2000

/-- Embeds the scalar fields of the `Equipment` model
(src/app/models.py lines 111-128); brand/model/serial, image,
specification JSON, manual path and calibration date omitted. -/
structure Equipment where
  id : String
  lab_id : String
  code : String
  name : String
  status : EquipmentStatus := .available
  needs_head_approval : Bool := false
deriving DecidableEq, Repr

/-- Embeds the scalar fields of the `Loan` model
(src/app/models.py lines 137-165).  `jsa_pdf` is a mandatory (non
Optional) column; `late_minutes` defaults to 0; `damage_cost`
(a 2-decimal Decimal) is modelled as an integer number of cents. -/
structure Loan where
  id : String
  equipment_id : String
  borrower_id : String
  supervisor_id : Option String := none
  lab_id : String
  start_time : Nat
  end_time : Nat
  purpose : String
  course : Option String := none
  project : Option String := none
  jsa_pdf : String
  status : LoanStatus := .pending
  approved_by : Option String := none
  head_approved_by : Option String := none
  checkout_by : Option String := none
  checkin_by : Option String := none
  checkout_condition : Option String := none
  checkin_condition : Option String := none
  photo_before : Option String := none
  photo_after : Option String := none
  late_minutes : Nat := 0
  damage_report : Option String := none
  damage_cost : Option Int := none
  notes : Option String := none
deriving DecidableEq, Repr

/-- Embeds `AuditLog` (src/app/models.py lines 213-224); the JSON
`detail` column is modelled as the old/new status payload the spec
requires for loan transitions; ip_address/user_agent omitted. -/
structure AuditLog where
  user_id : Option String
  action : String
  entity : String
  entity_id : Option String
  detail_old : Option LoanStatus
  detail_new : LoanStatus
deriving DecidableEq, Repr

/-- Embeds the `UserCreate` request schema
(src/app/models.py lines 258-265). -/
structure UserCreate where
  name : String
  email : String
  role : UserRole
  npm : Option String := none
  nip : Option String := none
  phone : Option String := none
  lab_id : Option String := none
deriving DecidableEq, Repr

/-- Declared field constraints of `UserCreate`: max_length bounds only;
no constraint ties `npm`/`nip` to `role`. -/
def UserCreate.accepted (u : UserCreate) : Bool :=
  u.name.length ≤ 100 && u.email.length ≤ 255 &&
  (match u.npm with | some s => s.length ≤ 20 | none => true) &&
  (match u.nip with | some s => s.length ≤ 30 | none => true) &&
  (match u.phone with | some s => s.length ≤ 20 | none => true) &&
  (match u.lab_id with | some s => s.length ≤ 36 | none => true)

/-- Embeds the `LabCreate` request schema
(src/app/models.py lines 288-298); `capacity` is `ge=1`. -/
structure LabCreate where
  code : String
  name : String
  location : String
  capacity : Int
  head_id : Option String := none
  contact_person : String
  contact_email : String
  description : String := ""
deriving DecidableEq, Repr

/-- Declared field constraints of `LabCreate`, including
`capacity: int = Field(ge=1)` (src/app/models.py line 292). -/
def LabCreate.accepted (lc : LabCreate) : Bool :=
  lc.code.length ≤ 10 && lc.name.length ≤ 100 && lc.location.length ≤ 200 &&
  1 ≤ lc.capacity &&
  (match lc.head_id with | some s => s.length ≤ 36 | none => true) &&
  lc.contact_person.length ≤ 100 && lc.contact_email.length ≤ 255 &&
  lc.description.length ≤ 2000

/-- Embeds the `LabUpdate` request schema
(src/app/models.py lines 300-308); the optional `capacity` is `ge=1`. -/
structure LabUpdate where
  name : Option String := none
  location : Option String := none
  capacity : Option Int := none
  head_id : Option String := none
  contact_person : Option String := none
  contact_email : Option String := none
  description : Option String := none
deriving DecidableEq, Repr

/-- Declared field constraints of `LabUpdate`, including
`capacity: Optional[int] = Field(default=None, ge=1)`
(src/app/models.py line 303). -/
def LabUpdate.accepted (lu : LabUpdate) : Bool :=
  (match lu.name with | some s => s.length ≤ 100 | none => true) &&
  (match lu.location with | some s => s.length ≤ 200 | none => true) &&
  (match lu.capacity with | some c => 1 ≤ c | none => true) &&
  (match lu.head_id with | some s => s.length ≤ 36 | none => true) &&
  (match lu.contact_person with | some s => s.length ≤ 100 | none => true) &&
  (match lu.contact_email with | some s => s.length ≤ 255 | none => true) &&
  (match lu.description with | some s => s.length ≤ 2000 | none => true)

/-- Embeds the `LoanCreate` request schema
(src/app/models.py lines 334-342).  Note the schema itself carries no
`jsa_pdf` field and no borrower id: the JSA document is uploaded through
a separate channel (file handling is out of the source's scope) and the
borrower comes from the caller's context. -/
structure LoanCreate where
  equipment_id : String
  supervisor_id : Option String := none
  start_time : Nat
  end_time : Nat
  purpose : String
  course : Option String := none
  project : Option String := none
  notes : Option String := none
deriving DecidableEq, Repr

/-- Error kinds of the loan lifecycle engine (spec section 7). -/
inductive LoanError where
  | NotFound
  | InvalidTransition
  | OverlapConflict
  | Unauthorized
  | ValidationError
deriving DecidableEq, Repr

/-- The entity store visible to the loan lifecycle engine: loans,
equipment, labs and the audit trail. -/
structure EngineState where
  loans : List Loan
  equipment : List Equipment
  labs : List Lab
  audit : List AuditLog
deriving DecidableEq, Repr

def findLoan (st : EngineState) (loanId : String) : Option Loan :=
  st.loans.find? (fun l => l.id == loanId)

def findEquip (st : EngineState) (equipId : String) : Option Equipment :=
  st.equipment.find? (fun e => e.id == equipId)

def findLab (st : EngineState) (labId : String) : Option Lab :=
  st.labs.find? (fun lb => lb.id == labId)

/-- Two loans conflict when they reference the same equipment, both are
in the active set and their half-open windows [start_time, end_time)
intersect (spec section 4.1, availability invariant). -/
def conflictB (a b : Loan) : Bool :=
  (a.equipment_id == b.equipment_id) && a.status.isActive && b.status.isActive &&
  decide (a.start_time < b.end_time) && decide (b.start_time < a.end_time)

/-- Whether some other stored loan conflicts with `loan`. -/
def overlapsOther (st : EngineState) (loan : Loan) : Bool :=
  st.loans.any (fun l => (l.id != loan.id) && conflictB l loan)

/-- Modelled from the spec: `late_minutes` is the whole number of
minutes between `end_time` and the checkin instant, floored at zero
(spec section 4.1, lateness computation).  Times are in seconds and
truncated natural subtraction provides the floor at zero. -/
def lateMinutes (endTime now : Nat) : Nat :=
  (now - endTime) / 60

/-- Modelled from the spec: atomic commit of one loan transition — the
loan record update, the optional equipment status update and exactly one
audit record are applied together (spec sections 5-7: transitions never
partially apply; every successful transition emits one AuditLog with the
actor, the action name, the loan id and the old/new status payload). -/
def commit (st : EngineState) (actorId : Option String) (action : String)
    (oldLoan newLoan : Loan) (equipUpdate : Option (String × EquipmentStatus)) :
    EngineState :=
  { loans := st.loans.map (fun l => if l = oldLoan then newLoan else l)
    equipment :=
      match equipUpdate with
      | none => st.equipment
      | some (eid, es) =>
          st.equipment.map (fun e => if e.id == eid then { e with status := es } else e)
    labs := st.labs
    audit :=
      { user_id := actorId
        action := action
        entity := "Loan"
        entity_id := some oldLoan.id
        detail_old := some oldLoan.status
        detail_new := newLoan.status } :: st.audit }

/-- Modelled from the spec: the pending loan record produced by a
successful creation; `lab_id` is denormalized from the equipment's lab. -/
def newLoanOf (newId : String) (req : LoanCreate) (borrowerId : String)
    (jsa : String) (labId : String) : Loan :=
  { id := newId
    equipment_id := req.equipment_id
    borrower_id := borrowerId
    supervisor_id := req.supervisor_id
    lab_id := labId
    start_time := req.start_time
    end_time := req.end_time
    purpose := req.purpose
    course := req.course
    project := req.project
    jsa_pdf := jsa
    status := .pending
    notes := req.notes }

/-- Modelled from the spec: `create_loan` (spec sections 4.1 and 6),
absent from src/, which holds only the `LoanCreate` schema.  Guards: the
mandatory JSA document must be supplied (it travels outside `LoanCreate`,
which has no such field), `start_time < end_time`, the equipment must
exist, and the requested window must not overlap any active loan for the
same equipment; on success a pending loan and one audit record are
stored. -/
def create_loan (st : EngineState) (req : LoanCreate) (borrowerId : String)
    (jsa : Option String) (newId : String) : Except LoanError EngineState :=
  match jsa with
  | none => .error .ValidationError
  | some jpath =>
    if req.end_time ≤ req.start_time then .error .ValidationError
    else
      match findEquip st req.equipment_id with
      | none => .error .NotFound
      | some equip =>
        let nl := newLoanOf newId req borrowerId jpath equip.lab_id
        if st.loans.any (fun l => conflictB nl l) then .error .OverlapConflict
        else
          .ok { st with
                loans := nl :: st.loans
                audit :=
                  { user_id := some borrowerId
                    action := "create"
                    entity := "Loan"
                    entity_id := some newId
                    detail_old := none
                    detail_new := .pending } :: st.audit }

/-- Transition events of the loan lifecycle engine (spec section 4.1). -/
inductive LoanEvent where
  | approve (actor : User)
  | reject (actor : User) (reason : String)
  | cancel (actor : User) (now : Nat)
  | checkout (actor : User) (grace : Nat) (condition : String) (photo : String) (now : Nat)
  | checkin (actor : User) (condition : String) (photo : String)
      (damage : Option String) (damageCost : Option Int) (now : Nat)
  | markLate (now : Nat)
deriving DecidableEq, Repr

/-- The actor a transition event records in the audit trail; the late
sweep is a scheduled trigger with no actor. -/
def eventActorId : LoanEvent → Option String
  | .approve a => some a.id
  | .reject a _ => some a.id
  | .cancel a _ => some a.id
  | .checkout a _ _ _ _ => some a.id
  | .checkin a _ _ _ _ _ => some a.id
  | .markLate _ => none

/-- Source statuses from which the spec's transition table allows each
event; `markLate` additionally accepts `late` (a repeated invocation is
a no-op, not an error).  Every other (state, event) pair is rejected. -/
def allowedFrom : LoanEvent → LoanStatus → Bool
  | .approve _, s => s == .pending || s == .needs_head_approval
  | .reject _ _, s => s == .pending || s == .needs_head_approval
  | .cancel _ _, s => s == .pending || s == .needs_head_approval || s == .approved
  | .checkout _ _ _ _ _, s => s == .approved
  | .checkin _ _ _ _ _ _, s => s == .in_use || s == .late
  | .markLate _, s => s == .in_use || s == .late

/-- Modelled from the spec: who may approve or reject a pending loan —
the supervisor named on the loan or lab staff (laboran, lab head,
admin) (spec section 4.1 and glossary). -/
def canApprovePending (actor : User) (loan : Loan) : Bool :=
  actor.role == .laboran || actor.role == .admin || actor.role == .kepala_lab ||
  (actor.role == .dosen && loan.supervisor_id == some actor.id)

/-- Modelled from the spec: the actor is head of the given lab. -/
def isLabHead (st : EngineState) (labId : String) (actor : User) : Bool :=
  match findLab st labId with
  | some lab => lab.head_id == some actor.id
  | none => false

/-- Modelled from the spec: the loan record produced by checkin; the
checkin fields are set, `late_minutes` is computed from `end_time` and
the checkin instant, and the status becomes `returned`
(spec section 4.1).  The update is the same function of the loan record
whether checkin happens from `in_use` or from `late`. -/
def checkinUpdate (loan : Loan) (actor : User) (condition photo : String)
    (damage : Option String) (damageCost : Option Int) (now : Nat) : Loan :=
  { loan with
    status := .returned
    checkin_by := some actor.id
    checkin_condition := some condition
    photo_after := some photo
    damage_report := damage
    damage_cost := damageCost
    late_minutes := lateMinutes loan.end_time now }

/-- Outcome of evaluating the transition table on one loan: either a
typed failure, or `none` for the idempotent no-op (a repeated
`markLate` on an already-late loan), or the action name, the updated
loan record and the optional equipment status update to commit. -/
abbrev StepResult :=
  Except LoanError (Option (String × Loan × Option (String × EquipmentStatus)))

/-- Modelled from the spec: the transition table of section 4.1, absent
from src/.  Guards are evaluated in the order: status admissibility,
authorization, further guards (the availability overlap re-check at
each approval step, the time guards for cancel, checkout and the late
sweep). -/
def stepLoan (st : EngineState) (loan : Loan) (ev : LoanEvent) : StepResult :=
  match ev with
  | .approve actor =>
    match loan.status with
    | .pending =>
      if canApprovePending actor loan then
        match findEquip st loan.equipment_id with
        | none => .error .NotFound
        | some equip =>
          if overlapsOther st loan then .error .OverlapConflict
          else if equip.needs_head_approval then
            .ok (some ("approve",
              { loan with status := .needs_head_approval, approved_by := some actor.id },
              none))
          else
            .ok (some ("approve",
              { loan with status := .approved, approved_by := some actor.id },
              none))
      else .error .Unauthorized
    | .needs_head_approval =>
      match findEquip st loan.equipment_id with
      | none => .error .NotFound
      | some equip =>
        if actor.role == .kepala_lab && isLabHead st equip.lab_id actor then
          if overlapsOther st loan then .error .OverlapConflict
          else
            .ok (some ("head_approve",
              { loan with status := .approved, head_approved_by := some actor.id },
              none))
        else .error .Unauthorized
    | _ => .error .InvalidTransition
  | .reject actor reason =>
    match loan.status with
    | .pending =>
      if canApprovePending actor loan then
        .ok (some ("reject", { loan with status := .rejected, notes := some reason }, none))
      else .error .Unauthorized
    | .needs_head_approval =>
      if canApprovePending actor loan then
        .ok (some ("reject", { loan with status := .rejected, notes := some reason }, none))
      else .error .Unauthorized
    | _ => .error .InvalidTransition
  | .cancel actor now =>
    match loan.status with
    | .pending =>
      if actor.id == loan.borrower_id || actor.role == .admin then
        if now < loan.start_time then
          .ok (some ("cancel", { loan with status := .cancelled }, none))
        else .error .InvalidTransition
      else .error .Unauthorized
    | .needs_head_approval =>
      if actor.id == loan.borrower_id || actor.role == .admin then
        if now < loan.start_time then
          .ok (some ("cancel", { loan with status := .cancelled }, none))
        else .error .InvalidTransition
      else .error .Unauthorized
    | .approved =>
      if actor.id == loan.borrower_id || actor.role == .admin then
        if now < loan.start_time then
          .ok (some ("cancel", { loan with status := .cancelled }, none))
        else .error .InvalidTransition
      else .error .Unauthorized
    | _ => .error .InvalidTransition
  | .checkout actor grace condition photo now =>
    match loan.status with
    | .approved =>
      if now ≤ loan.start_time + grace ∧ loan.start_time ≤ now + grace then
        .ok (some ("checkout",
          { loan with
            status := .in_use
            checkout_by := some actor.id
            checkout_condition := some condition
            photo_before := some photo },
          some (loan.equipment_id, .in_use)))
      else .error .InvalidTransition
    | _ => .error .InvalidTransition
  | .checkin actor condition photo damage damageCost now =>
    match loan.status with
    | .in_use =>
      .ok (some ("checkin", checkinUpdate loan actor condition photo damage damageCost now,
        some (loan.equipment_id, .available)))
    | .late =>
      .ok (some ("checkin", checkinUpdate loan actor condition photo damage damageCost now,
        some (loan.equipment_id, .available)))
    | _ => .error .InvalidTransition
  | .markLate now =>
    match loan.status with
    | .in_use =>
      if loan.end_time < now then .ok (some ("mark_late", { loan with status := .late }, none))
      else .error .InvalidTransition
    | .late => .ok none
    | _ => .error .InvalidTransition

/-- Modelled from the spec: the loan lifecycle engine's transition
entry point (spec sections 4.1 and 6), absent from src/.  The loan is
looked up, the transition table is evaluated, and any resulting update
is applied as one atomic `commit`; a table failure propagates with the
state untouched. -/
def applyEvent (st : EngineState) (loanId : String) (ev : LoanEvent) :
    Except LoanError EngineState :=
  match findLoan st loanId with
  | none => .error .NotFound
  | some loan =>
    match stepLoan st loan ev with
    | .error e => .error e
    | .ok none => .ok st
    | .ok (some (act, newLoan, equipUpdate)) =>
      .ok (commit st (eventActorId ev) act loan newLoan equipUpdate)

/-- Pairwise availability invariant over a list of stored loans:
no two distinct entries conflict (spec section 4.1). -/
def availOkL (ls : List Loan) : Prop :=
  ∀ i j, (hi : i < ls.length) → (hj : j < ls.length) → i ≠ j →
    conflictB ls[i] ls[j] = false

/-- Availability invariant of the engine state. -/
def availOk (st : EngineState) : Prop := availOkL st.loans

/-- Window well-formedness invariant: every stored loan has
`start_time < end_time`. -/
def windowsOk (st : EngineState) : Prop :=
  ∀ l ∈ st.loans, l.start_time < l.end_time

instance {ε α : Type} [DecidableEq ε] [DecidableEq α] : DecidableEq (Except ε α) :=
  fun a b =>
    match a, b with
    | .error e, .error f =>
      if h : e = f then isTrue (by rw [h])
      else isFalse (fun hh => h (by injection hh))
    | .error _, .ok _ => isFalse (fun hh => Except.noConfusion hh)
    | .ok _, .error _ => isFalse (fun hh => Except.noConfusion hh)
    | .ok x, .ok y =>
      if h : x = y then isTrue (by rw [h])
      else isFalse (fun hh => h (by injection hh))

/-! Concrete fixtures used by the witness theorems: one lab with head
"H", ordinary equipment "E" and head-approval equipment "F", lab staff
"S", and loans in various lifecycle stages. -/

def wLab : Lab :=
  { id := "L", code := "LL", name := "Lab", location := "x", capacity := 5,
    head_id := some "H", contact_person := "p", contact_email := "e" }

def wLabZero : Lab := { wLab with capacity := 0 }

def wLabCreateZero : LabCreate :=
  { code := "LL", name := "Lab", location := "x", capacity := 0,
    contact_person := "p", contact_email := "e" }

def wLabUpdateZero : LabUpdate := { capacity := some 0 }

def wEqE : Equipment := { id := "E", lab_id := "L", code := "c", name := "n" }

def wEqF : Equipment :=
  { id := "F", lab_id := "L", code := "d", name := "m", needs_head_approval := true }

def wStaff : User :=
  { id := "S", name := "s", email := "s@x", role := .laboran, password_hash := "h" }

def wHeadU : User :=
  { id := "H", name := "h", email := "h@x", role := .kepala_lab, password_hash := "h" }

def wReqA : LoanCreate :=
  { equipment_id := "E", start_time := 36000, end_time := 39600, purpose := "p" }

def wReqB : LoanCreate :=
  { equipment_id := "E", start_time := 37800, end_time := 41400, purpose := "p" }

def wLoanA : Loan := newLoanOf "A" wReqA "u1" "jsa" "L"

def wSt0 : EngineState :=
  { loans := [], equipment := [wEqE, wEqF], labs := [wLab], audit := [] }

def wAuditCreateA : AuditLog :=
  { user_id := some "u1", action := "create", entity := "Loan",
    entity_id := some "A", detail_old := none, detail_new := .pending }

def wSt1 : EngineState := { wSt0 with loans := [wLoanA], audit := [wAuditCreateA] }

def wLoanReturned : Loan :=
  { id := "R", equipment_id := "E", borrower_id := "u1", lab_id := "L",
    start_time := 0, end_time := 600, purpose := "p", jsa_pdf := "j",
    status := .returned }

def wStReturned : EngineState :=
  { loans := [wLoanReturned], equipment := [wEqE], labs := [wLab], audit := [] }

def wLoanInUse : Loan :=
  { id := "U", equipment_id := "E", borrower_id := "u1", lab_id := "L",
    start_time := 28800, end_time := 32400, purpose := "p", jsa_pdf := "j",
    status := .in_use }

def wStInUse : EngineState :=
  { loans := [wLoanInUse], equipment := [wEqE], labs := [wLab], audit := [] }

def wLoanPendingF : Loan :=
  { id := "C", equipment_id := "F", borrower_id := "u1", lab_id := "L",
    start_time := 36000, end_time := 39600, purpose := "p", jsa_pdf := "j",
    status := .pending }

def wStPendingF : EngineState :=
  { loans := [wLoanPendingF], equipment := [wEqE, wEqF], labs := [wLab], audit := [] }

def wLoanNha : Loan := { wLoanPendingF with status := .needs_head_approval }

def wStNha : EngineState := { wStPendingF with loans := [wLoanNha] }

def wReqEq : LoanCreate := { wReqA with end_time := 36000 }

def wStLate : EngineState :=
  commit wStInUse none "mark_late" wLoanInUse
    { wLoanInUse with status := .late } none

def wUserNpm : User :=
  { id := "u9", name := "N", email := "n@x", role := .admin,
    password_hash := "h", npm := some "123" }

def wUserBase : User :=
  { id := "u0", name := "N", email := "n@x", role := .mahasiswa,
    password_hash := "h" }

lemma conflictB_eq_true_iff {a b : Loan} :
    conflictB a b = true ↔
      a.equipment_id = b.equipment_id ∧ a.status.isActive = true ∧
      b.status.isActive = true ∧ a.start_time < b.end_time ∧
      b.start_time < a.end_time := by
  simp [conflictB, Bool.and_eq_true, and_assoc]

lemma conflictB_comm (a b : Loan) : conflictB a b = conflictB b a := by
  cases hab : conflictB a b <;> cases hba : conflictB b a <;> try rfl
  · rw [conflictB_eq_true_iff] at hba
    have h : conflictB a b = true :=
      conflictB_eq_true_iff.mpr
        ⟨hba.1.symm, hba.2.2.1, hba.2.1, hba.2.2.2.2, hba.2.2.2.1⟩
    rw [hab] at h; exact absurd h (by decide)
  · rw [conflictB_eq_true_iff] at hab
    have h : conflictB b a = true :=
      conflictB_eq_true_iff.mpr
        ⟨hab.1.symm, hab.2.2.1, hab.2.1, hab.2.2.2.2, hab.2.2.2.1⟩
    rw [hba] at h; exact absurd h (by decide)

lemma conflictB_mono_left {old new b : Loan}
    (heq : new.equipment_id = old.equipment_id)
    (hs : new.start_time = old.start_time) (he : new.end_time = old.end_time)
    (hact : new.status.isActive = true → old.status.isActive = true) :
    conflictB new b = true → conflictB old b = true := by
  intro h
  rw [conflictB_eq_true_iff] at h ⊢
  obtain ⟨h1, h2, h3, h4, h5⟩ := h
  refine ⟨?_, hact h2, h3, ?_, ?_⟩
  · rw [← heq]; exact h1
  · rw [← hs]; exact h4
  · rw [← he]; exact h5

/-- A pointwise status-weakening rewrite of the stored loans preserves
the pairwise availability invariant. -/
lemma availOkL_map {ls : List Loan} {f : Loan → Loan}
    (hf : ∀ l, (f l).equipment_id = l.equipment_id ∧
      (f l).start_time = l.start_time ∧ (f l).end_time = l.end_time ∧
      ((f l).status.isActive = true → l.status.isActive = true))
    (h : availOkL ls) : availOkL (ls.map f) := by
  intro i j hi hj hij
  rw [List.length_map] at hi hj
  rw [List.getElem_map, List.getElem_map]
  have hbase := h i j hi hj hij
  cases hc : conflictB (f ls[i]) (f ls[j]) with
  | false => rfl
  | true =>
    exfalso
    have h1 : conflictB ls[i] (f ls[j]) = true :=
      conflictB_mono_left (hf ls[i]).1 (hf ls[i]).2.1 (hf ls[i]).2.2.1
        (hf ls[i]).2.2.2 hc
    rw [conflictB_comm] at h1
    have h2 : conflictB ls[j] ls[i] = true :=
      conflictB_mono_left (hf ls[j]).1 (hf ls[j]).2.1 (hf ls[j]).2.2.1
        (hf ls[j]).2.2.2 h1
    rw [conflictB_comm] at h2
    rw [hbase] at h2
    exact absurd h2 (by decide)

lemma commit_loans (st : EngineState) (aid : Option String) (act : String)
    (oldLoan newLoan : Loan) (eu : Option (String × EquipmentStatus)) :
    (commit st aid act oldLoan newLoan eu).loans =
      st.loans.map (fun l => if l = oldLoan then newLoan else l) := rfl

lemma availOk_commit {st : EngineState} {aid : Option String} {act : String}
    {oldLoan newLoan : Loan} {eu : Option (String × EquipmentStatus)}
    (heq : newLoan.equipment_id = oldLoan.equipment_id)
    (hs : newLoan.start_time = oldLoan.start_time)
    (he : newLoan.end_time = oldLoan.end_time)
    (hact : newLoan.status.isActive = true → oldLoan.status.isActive = true)
    (h : availOk st) : availOk (commit st aid act oldLoan newLoan eu) := by
  show availOkL ((commit st aid act oldLoan newLoan eu).loans)
  rw [commit_loans]
  refine availOkL_map ?_ h
  intro l
  by_cases hl : l = oldLoan
  · subst hl; simp only [if_pos rfl]
    exact ⟨heq, hs, he, hact⟩
  · simp [hl]

lemma findLoan_id {st : EngineState} {loanId : String} {loan : Loan}
    (h : findLoan st loanId = some loan) : loan.id = loanId := by
  unfold findLoan at h
  have := List.find?_some h
  simpa using this

lemma findLoan_mem {st : EngineState} {loanId : String} {loan : Loan}
    (h : findLoan st loanId = some loan) : loan ∈ st.loans :=
  List.mem_of_find?_eq_some h

/-- Replacing the found loan record by one with the same id keeps it
the record returned by a lookup. -/
lemma find_map_replace {loanId : String} {oldLoan newLoan : Loan}
    (hid : newLoan.id = oldLoan.id) :
    ∀ ls : List Loan, ls.find? (fun l => l.id == loanId) = some oldLoan →
      (ls.map (fun l => if l = oldLoan then newLoan else l)).find?
        (fun l => l.id == loanId) = some newLoan := by
  intro ls
  induction ls with
  | nil => intro h; simp at h
  | cons x rest ih =>
    intro h
    simp only [List.find?] at h
    cases hx : (x.id == loanId) with
    | true =>
      simp only [hx] at h
      injection h with h
      subst h
      have hnew : (newLoan.id == x.id) = true := by
        rw [hid]; exact beq_self_eq_true x.id
      have hnew' : (newLoan.id == loanId) = true := by
        rw [hid]; exact hx
      simp [List.map_cons, List.find?, hnew']
    | false =>
      simp only [hx] at h
      have hox : oldLoan.id = loanId := by
        have := List.find?_some h; simpa using this
      have hxo : x ≠ oldLoan := by
        intro hxe; rw [hxe, hox] at hx; simp at hx
      simp only [List.map_cons, if_neg hxo, List.find?, hx]
      exact ih h

lemma findLoan_commit {st : EngineState} {loanId : String}
    {oldLoan newLoan : Loan} {aid : Option String} {act : String}
    {eu : Option (String × EquipmentStatus)}
    (h : findLoan st loanId = some oldLoan) (hid : newLoan.id = oldLoan.id) :
    findLoan (commit st aid act oldLoan newLoan eu) loanId = some newLoan := by
  unfold findLoan at h ⊢
  rw [commit_loans]
  exact find_map_replace hid st.loans h

/-- Every successful table entry preserves the loan id, the equipment
reference and the time window, never activates an inactive loan, and is
allowed by the transition table. -/
lemma stepLoan_ok_fields {st : EngineState} {loan : Loan} {ev : LoanEvent}
    {act : String} {nl : Loan} {eu : Option (String × EquipmentStatus)}
    (h : stepLoan st loan ev = .ok (some (act, nl, eu))) :
    nl.id = loan.id ∧ nl.equipment_id = loan.equipment_id ∧
    nl.start_time = loan.start_time ∧ nl.end_time = loan.end_time ∧
    (nl.status.isActive = true → loan.status.isActive = true) ∧
    allowedFrom ev loan.status = true := by
  cases ev <;> cases hst : loan.status <;>
    simp only [stepLoan, hst] at h <;>
    try exact Except.noConfusion h
  all_goals repeat' split at h
  all_goals try exact Except.noConfusion h
  all_goals simp only [Except.ok.injEq, Option.some.injEq, Prod.mk.injEq] at h
  all_goals try exact Option.noConfusion h
  all_goals (
    obtain ⟨-, h2, -⟩ := h
    subst h2
    simp [checkinUpdate, LoanStatus.isActive, allowedFrom, hst])

/-- A (state, event) pair outside the transition table fails with
`InvalidTransition`. -/
lemma stepLoan_notAllowed {st : EngineState} {loan : Loan} {ev : LoanEvent}
    (h : allowedFrom ev loan.status = false) :
    stepLoan st loan ev = .error .InvalidTransition := by
  cases ev <;> cases hst : loan.status <;>
    try (simp [allowedFrom, hst] at h)
  all_goals simp [stepLoan, hst]

/-- Shape of every successful call of the engine's transition entry
point: either the idempotent no-op, or one atomic commit of the table's
outcome. -/
lemma applyEvent_ok_shape {st : EngineState} {loanId : String}
    {ev : LoanEvent} {st' : EngineState}
    (h : applyEvent st loanId ev = .ok st') :
    st' = st ∨
    ∃ loan act nl eu, findLoan st loanId = some loan ∧
      stepLoan st loan ev = .ok (some (act, nl, eu)) ∧
      st' = commit st (eventActorId ev) act loan nl eu := by
  unfold applyEvent at h
  cases hf : findLoan st loanId with
  | none => simp only [hf] at h; exact Except.noConfusion h
  | some loan =>
    simp only [hf] at h
    cases hs : stepLoan st loan ev with
    | error e => simp only [hs] at h; exact Except.noConfusion h
    | ok r =>
      simp only [hs] at h
      cases r with
      | none =>
        simp only [Except.ok.injEq] at h
        exact .inl h.symm
      | some t =>
        obtain ⟨act, nl, eu⟩ := t
        simp only [Except.ok.injEq] at h
        exact .inr ⟨loan, act, nl, eu, rfl, hs, h.symm⟩

/-- Shape of every successful loan creation: the JSA document was
supplied, the window is well formed, the equipment exists, no active
loan for it overlaps the window, and the new state prepends the pending
loan and one audit record. -/
lemma create_loan_ok_shape {st : EngineState} {req : LoanCreate}
    {bId : String} {jsa : Option String} {nId : String} {st' : EngineState}
    (h : create_loan st req bId jsa nId = .ok st') :
    ∃ jpath equip, jsa = some jpath ∧ req.start_time < req.end_time ∧
      findEquip st req.equipment_id = some equip ∧
      (st.loans.any fun l =>
        conflictB (newLoanOf nId req bId jpath equip.lab_id) l) = false ∧
      st' = { st with
              loans := newLoanOf nId req bId jpath equip.lab_id :: st.loans
              audit :=
                { user_id := some bId
                  action := "create"
                  entity := "Loan"
                  entity_id := some nId
                  detail_old := none
                  detail_new := .pending } :: st.audit } := by
  unfold create_loan at h
  cases jsa with
  | none => exact Except.noConfusion h
  | some jpath =>
    simp only at h
    split at h
    · exact Except.noConfusion h
    · rename_i hle
      cases hfe : findEquip st req.equipment_id with
      | none => simp only [hfe] at h; exact Except.noConfusion h
      | some equip =>
        simp only [hfe] at h
        split at h
        · exact Except.noConfusion h
        · rename_i hany
          simp only [Except.ok.injEq] at h
          refine ⟨jpath, equip, rfl, by omega, rfl, ?_, h.symm⟩
          simpa using hany

/-- Prepending a loan that conflicts with no stored loan preserves the
pairwise availability invariant. -/
lemma availOkL_cons {nl : Loan} {ls : List Loan}
    (hnew : ∀ l ∈ ls, conflictB nl l = false) (h : availOkL ls) :
    availOkL (nl :: ls) := by
  intro i j hi hj hij
  cases i with
  | zero =>
    cases j with
    | zero => exact absurd rfl hij
    | succ k =>
      rw [List.getElem_cons_zero, List.getElem_cons_succ]
      exact hnew _ (List.getElem_mem _)
  | succ k =>
    cases j with
    | zero =>
      rw [List.getElem_cons_zero, List.getElem_cons_succ, conflictB_comm]
      exact hnew _ (List.getElem_mem _)
    | succ m =>
      rw [List.getElem_cons_succ, List.getElem_cons_succ]
      rw [List.length_cons] at hi hj
      exact h k m (by omega) (by omega) (by omega)

/-- A pointwise window-preserving rewrite of the stored loans preserves
window well-formedness. -/
lemma windowsOk_map {ls : List Loan} {f : Loan → Loan}
    (hf : ∀ l, (f l).start_time = l.start_time ∧ (f l).end_time = l.end_time)
    (h : ∀ l ∈ ls, l.start_time < l.end_time) :
    ∀ l ∈ ls.map f, l.start_time < l.end_time := by
  intro l' hl'
  obtain ⟨l, hl, rfl⟩ := List.mem_map.mp hl'
  rw [(hf l).1, (hf l).2]
  exact h l hl

lemma applyEvent_approve_pending_flagFalse {st : EngineState} {lid : String}
    {loan : Loan} {actor : User} {equip : Equipment}
    (hf : findLoan st lid = some loan) (hst : loan.status = .pending)
    (hauth : canApprovePending actor loan = true)
    (hfe : findEquip st loan.equipment_id = some equip)
    (hflag : equip.needs_head_approval = false)
    (hov : overlapsOther st loan = false) :
    applyEvent st lid (.approve actor) =
      .ok (commit st (some actor.id) "approve" loan
            { loan with status := .approved, approved_by := some actor.id } none) := by
  have hs : stepLoan st loan (.approve actor) =
      .ok (some ("approve",
        { loan with status := .approved, approved_by := some actor.id }, none)) := by
    simp [stepLoan, hst, hauth, hfe, hflag, hov]
  unfold applyEvent
  simp only [hf, hs, eventActorId]

lemma applyEvent_approve_pending_flagTrue {st : EngineState} {lid : String}
    {loan : Loan} {actor : User} {equip : Equipment}
    (hf : findLoan st lid = some loan) (hst : loan.status = .pending)
    (hauth : canApprovePending actor loan = true)
    (hfe : findEquip st loan.equipment_id = some equip)
    (hflag : equip.needs_head_approval = true)
    (hov : overlapsOther st loan = false) :
    applyEvent st lid (.approve actor) =
      .ok (commit st (some actor.id) "approve" loan
            { loan with status := .needs_head_approval, approved_by := some actor.id }
            none) := by
  have hs : stepLoan st loan (.approve actor) =
      .ok (some ("approve",
        { loan with status := .needs_head_approval, approved_by := some actor.id },
        none)) := by
    simp [stepLoan, hst, hauth, hfe, hflag, hov]
  unfold applyEvent
  simp only [hf, hs, eventActorId]

lemma applyEvent_approve_nha {st : EngineState} {lid : String}
    {loan : Loan} {actor : User} {equip : Equipment}
    (hf : findLoan st lid = some loan) (hst : loan.status = .needs_head_approval)
    (hfe : findEquip st loan.equipment_id = some equip)
    (hrole : actor.role = .kepala_lab) (hhead : isLabHead st equip.lab_id actor = true)
    (hov : overlapsOther st loan = false) :
    applyEvent st lid (.approve actor) =
      .ok (commit st (some actor.id) "head_approve" loan
            { loan with status := .approved, head_approved_by := some actor.id }
            none) := by
  have hs : stepLoan st loan (.approve actor) =
      .ok (some ("head_approve",
        { loan with status := .approved, head_approved_by := some actor.id },
        none)) := by
    simp [stepLoan, hst, hfe, hrole, hhead, hov]
  unfold applyEvent
  simp only [hf, hs, eventActorId]

lemma applyEvent_checkin_inUse {st : EngineState} {lid : String} {loan : Loan}
    {actor : User} {cond photo : String} {dmg : Option String} {dc : Option Int}
    {now : Nat}
    (hf : findLoan st lid = some loan) (hst : loan.status = .in_use) :
    applyEvent st lid (.checkin actor cond photo dmg dc now) =
      .ok (commit st (some actor.id) "checkin" loan
            (checkinUpdate loan actor cond photo dmg dc now)
            (some (loan.equipment_id, .available))) := by
  have hs : stepLoan st loan (.checkin actor cond photo dmg dc now) =
      .ok (some ("checkin", checkinUpdate loan actor cond photo dmg dc now,
        some (loan.equipment_id, .available))) := by
    simp [stepLoan, hst]
  unfold applyEvent
  simp only [hf, hs, eventActorId]

lemma applyEvent_checkin_late {st : EngineState} {lid : String} {loan : Loan}
    {actor : User} {cond photo : String} {dmg : Option String} {dc : Option Int}
    {now : Nat}
    (hf : findLoan st lid = some loan) (hst : loan.status = .late) :
    applyEvent st lid (.checkin actor cond photo dmg dc now) =
      .ok (commit st (some actor.id) "checkin" loan
            (checkinUpdate loan actor cond photo dmg dc now)
            (some (loan.equipment_id, .available))) := by
  have hs : stepLoan st loan (.checkin actor cond photo dmg dc now) =
      .ok (some ("checkin", checkinUpdate loan actor cond photo dmg dc now,
        some (loan.equipment_id, .available))) := by
    simp [stepLoan, hst]
  unfold applyEvent
  simp only [hf, hs, eventActorId]

lemma applyEvent_markLate_inUse {st : EngineState} {lid : String} {loan : Loan}
    {now : Nat}
    (hf : findLoan st lid = some loan) (hst : loan.status = .in_use)
    (hlt : loan.end_time < now) :
    applyEvent st lid (.markLate now) =
      .ok (commit st none "mark_late" loan { loan with status := .late } none) := by
  have hs : stepLoan st loan (.markLate now) =
      .ok (some ("mark_late", { loan with status := .late }, none)) := by
    simp [stepLoan, hst, hlt]
  unfold applyEvent
  simp only [hf, hs, eventActorId]

lemma applyEvent_markLate_late {st : EngineState} {lid : String} {loan : Loan}
    {now : Nat}
    (hf : findLoan st lid = some loan) (hst : loan.status = .late) :
    applyEvent st lid (.markLate now) = .ok st := by
  have hs : stepLoan st loan (.markLate now) = .ok none := by
    simp [stepLoan, hst]
  unfold applyEvent
  simp only [hf, hs]

lemma Lab_accepted_capacity {lab : Lab} (h : lab.accepted = true) :
    1 ≤ lab.capacity := by
  simp [Lab.accepted, Bool.and_eq_true] at h
  tauto

lemma LabCreate_accepted_capacity {lc : LabCreate} (h : lc.accepted = true) :
    1 ≤ lc.capacity := by
  simp [LabCreate.accepted, Bool.and_eq_true] at h
  tauto

lemma LabUpdate_accepted_capacity {lu : LabUpdate} {c : Int}
    (h : lu.accepted = true) (hc : lu.capacity = some c) : 1 ≤ c := by
  simp [LabUpdate.accepted, Bool.and_eq_true, hc] at h
  tauto

/-- C2: a transition event fired in a state where the transition table
does not allow it — in particular any event fired from a terminal state
rejected, cancelled or returned — fails with `InvalidTransition`, and,
the engine returning only the error, the loan's state is unchanged. -/
theorem claim2_invalid_transitions :
    (∀ (ev : LoanEvent) (s : LoanStatus), s.isTerminal = true →
      allowedFrom ev s = false) ∧
    (∀ (st : EngineState) (lid : String) (ev : LoanEvent) (loan : Loan),
      findLoan st lid = some loan → allowedFrom ev loan.status = false →
      applyEvent st lid ev = .error .InvalidTransition) := by
  constructor
  · intro ev s hs
    cases ev <;> cases s <;>
      simp_all [LoanStatus.isTerminal, allowedFrom]
  · intro st lid ev loan hf hallow
    unfold applyEvent
    simp only [hf, stepLoan_notAllowed hallow]

/-- Witness for C2: every event is disallowed from `returned`, and an
approval fired at the returned loan "R" fails with `InvalidTransition`. -/
theorem claim2_witness :
    LoanStatus.returned.isTerminal = true ∧
    applyEvent wStReturned "R" (.approve wStaff) = .error .InvalidTransition :=
  ⟨by decide,
   claim2_invalid_transitions.2 wStReturned "R" (.approve wStaff) wLoanReturned
     (by decide) (by decide)⟩

/-- C9 counterexample: the claim "npm is set iff role = mahasiswa for
every user accepted by the model" is false: user "u9" has role admin,
a set npm and satisfies every declared constraint of the User model. -/
theorem claim9_counterexample :
    ¬ ∀ u : User, u.accepted = true → (u.npm.isSome = true ↔ u.role = .mahasiswa) := by
  intro hall
  have h := hall wUserNpm (by decide)
  exact absurd (h.mp (by decide)) (by decide)

/-- C9 amended: `npm` and `nip` are optional, length-bounded fields with
no declared dependence on `role`; the persisted User model and the
UserCreate schema accept every role with npm/nip set or unset. -/
theorem claim9_amended_npm_free :
    (∀ r : UserRole,
      User.accepted { wUserBase with role := r, npm := some "123", nip := some "45" } = true ∧
      User.accepted { wUserBase with role := r, npm := none, nip := none } = true) ∧
    (∀ r : UserRole,
      UserCreate.accepted { name := "N", email := "n@x", role := r, npm := some "123" } = true) := by
  refine ⟨fun r => ⟨rfl, rfl⟩, fun r => rfl⟩

/-- C10: the persisted Lab model, LabCreate and LabUpdate all declare
`capacity ≥ 1` and reject zero or negative capacities. -/
theorem claim10_capacity_ge_one :
    (∀ lab : Lab, lab.accepted = true → 1 ≤ lab.capacity) ∧
    (∀ lab : Lab, lab.capacity < 1 → lab.accepted = false) ∧
    (∀ lc : LabCreate, lc.accepted = true → 1 ≤ lc.capacity) ∧
    (∀ lc : LabCreate, lc.capacity < 1 → lc.accepted = false) ∧
    (∀ (lu : LabUpdate) (c : Int), lu.accepted = true → lu.capacity = some c → 1 ≤ c) ∧
    (∀ (lu : LabUpdate) (c : Int), lu.capacity = some c → c < 1 → lu.accepted = false) := by
  refine ⟨fun lab h => Lab_accepted_capacity h, ?_,
          fun lc h => LabCreate_accepted_capacity h, ?_,
          fun lu c h hc => LabUpdate_accepted_capacity h hc, ?_⟩
  · intro lab h
    cases hacc : lab.accepted with
    | false => rfl
    | true => exact absurd (Lab_accepted_capacity hacc) (by omega)
  · intro lc h
    cases hacc : lc.accepted with
    | false => rfl
    | true => exact absurd (LabCreate_accepted_capacity hacc) (by omega)
  · intro lu c hc h
    cases hacc : lu.accepted with
    | false => rfl
    | true => exact absurd (LabUpdate_accepted_capacity hacc hc) (by omega)

/-- Claim C1: for every equipment id the active loans are pairwise
non-overlapping on half-open windows — the invariant is preserved by
loan creation and by every transition, an overlapping creation fails
with `OverlapConflict`, and the overlap check is re-evaluated at both
approval steps, not only at creation. -/
theorem claim1_availability_invariant :
    (∀ (st : EngineState) (req : LoanCreate) (bId : String) (jsa : Option String)
        (nId : String) (st' : EngineState), availOk st →
      create_loan st req bId jsa nId = .ok st' → availOk st') ∧
    (∀ (st : EngineState) (lid : String) (ev : LoanEvent) (st' : EngineState),
      availOk st → applyEvent st lid ev = .ok st' → availOk st') ∧
    (∀ (st : EngineState) (req : LoanCreate) (bId jpath nId : String)
        (equip : Equipment) (l : Loan),
      findEquip st req.equipment_id = some equip → l ∈ st.loans →
      l.equipment_id = req.equipment_id → l.status.isActive = true →
      req.start_time < l.end_time → l.start_time < req.end_time →
      req.start_time < req.end_time →
      create_loan st req bId (some jpath) nId = .error .OverlapConflict) ∧
    (∀ (st : EngineState) (lid : String) (actor : User) (loan : Loan),
      findLoan st lid = some loan → loan.status = .pending →
      canApprovePending actor loan = true →
      findEquip st loan.equipment_id ≠ none → overlapsOther st loan = true →
      applyEvent st lid (.approve actor) = .error .OverlapConflict) ∧
    (∀ (st : EngineState) (lid : String) (actor : User) (loan : Loan)
        (equip : Equipment),
      findLoan st lid = some loan → loan.status = .needs_head_approval →
      findEquip st loan.equipment_id = some equip →
      actor.role = .kepala_lab → isLabHead st equip.lab_id actor = true →
      overlapsOther st loan = true →
      applyEvent st lid (.approve actor) = .error .OverlapConflict) := by
  refine ⟨?_, ?_, ?_, ?_, ?_⟩
  · intro st req bId jsa nId st' hav h
    obtain ⟨jpath, equip, -, -, -, hany, rfl⟩ := create_loan_ok_shape h
    show availOkL (newLoanOf nId req bId jpath equip.lab_id :: st.loans)
    refine availOkL_cons ?_ hav
    intro l hl
    have h2 := List.any_eq_false.mp hany l hl
    cases hc : conflictB (newLoanOf nId req bId jpath equip.lab_id) l with
    | false => rfl
    | true => exact absurd hc h2
  · intro st lid ev st' hav h
    rcases applyEvent_ok_shape h with rfl | ⟨loan, act, nl, eu, hf, hs, rfl⟩
    · exact hav
    · obtain ⟨-, heq, hstt, hend, hact, -⟩ := stepLoan_ok_fields hs
      exact availOk_commit heq hstt hend hact hav
  · intro st req bId jpath nId equip l hfe hl heql hactive h4 h5 h7
    have hconf : conflictB (newLoanOf nId req bId jpath equip.lab_id) l = true := by
      rw [conflictB_eq_true_iff]
      exact ⟨heql.symm, rfl, hactive, h4, h5⟩
    have hany : (st.loans.any fun x =>
        conflictB (newLoanOf nId req bId jpath equip.lab_id) x) = true :=
      List.any_eq_true.mpr ⟨l, hl, hconf⟩
    simp [create_loan, hfe, hany, Nat.not_le.mpr h7]
  · intro st lid actor loan hf hst hauth hfene hov
    cases hfe : findEquip st loan.equipment_id with
    | none => exact absurd hfe hfene
    | some equip =>
      have hs : stepLoan st loan (.approve actor) = .error .OverlapConflict := by
        simp [stepLoan, hst, hauth, hfe, hov]
      unfold applyEvent
      simp only [hf, hs]
  · intro st lid actor loan equip hf hst hfe hrole hhead hov
    have hs : stepLoan st loan (.approve actor) = .error .OverlapConflict := by
      simp [stepLoan, hst, hfe, hrole, hhead, hov]
    unfold applyEvent
    simp only [hf, hs]

/-- Witness for C1: the spec scenario — loan A holds [10:00, 11:00) on
equipment E, a request B for [10:30, 11:30) on E fails with
`OverlapConflict` (times in seconds of day). -/
theorem claim1_witness :
    create_loan wSt1 wReqB "u2" (some "jsa") "B" = .error .OverlapConflict :=
  claim1_availability_invariant.2.2.1 wSt1 wReqB "u2" "jsa" "B" wEqE wLoanA
    (by decide) (by decide) (by decide) (by decide) (by decide) (by decide)
    (by decide)

/-- Claim C3: checkin of a loan in `in_use` sets the status to
`returned` and computes `late_minutes` once, as the whole minutes
between `end_time` and the checkin instant floored at zero; a second
checkin of a returned loan fails with `InvalidTransition` and no event
at all is allowed from `returned`, so `late_minutes` is never
recomputed. -/
theorem claim3_checkin_once :
    (∀ (st : EngineState) (lid : String) (loan : Loan) (actor : User)
        (cond photo : String) (dmg : Option String) (dc : Option Int) (now : Nat),
      findLoan st lid = some loan → loan.status = .in_use →
      applyEvent st lid (.checkin actor cond photo dmg dc now) =
        .ok (commit st (some actor.id) "checkin" loan
              (checkinUpdate loan actor cond photo dmg dc now)
              (some (loan.equipment_id, .available))) ∧
      (checkinUpdate loan actor cond photo dmg dc now).status = .returned ∧
      (checkinUpdate loan actor cond photo dmg dc now).late_minutes =
        (now - loan.end_time) / 60) ∧
    (∀ (st : EngineState) (lid : String) (loan : Loan) (actor : User)
        (cond photo : String) (dmg : Option String) (dc : Option Int) (now : Nat),
      findLoan st lid = some loan → loan.status = .returned →
      applyEvent st lid (.checkin actor cond photo dmg dc now) =
        .error .InvalidTransition) ∧
    (∀ ev : LoanEvent, allowedFrom ev .returned = false) := by
  refine ⟨?_, ?_, ?_⟩
  · intro st lid loan actor cond photo dmg dc now hf hst
    exact ⟨applyEvent_checkin_inUse hf hst, rfl, rfl⟩
  · intro st lid loan actor cond photo dmg dc now hf hst
    have hallow : allowedFrom (.checkin actor cond photo dmg dc now) loan.status = false := by
      rw [hst]; simp [allowedFrom]
    unfold applyEvent
    simp only [hf, stepLoan_notAllowed hallow]
  · intro ev
    cases ev <;> simp [allowedFrom]

/-- Witness for C3: the spec scenario — end_time 09:00 (32400 s),
checkin at 09:15 (33300 s) yields `late_minutes = 15` and status
`returned`. -/
theorem claim3_witness :
    applyEvent wStInUse "U" (.checkin wStaff "ok" "ph" none none 33300) =
      .ok (commit wStInUse (some "S") "checkin" wLoanInUse
            (checkinUpdate wLoanInUse wStaff "ok" "ph" none none 33300)
            (some ("E", .available))) ∧
    (checkinUpdate wLoanInUse wStaff "ok" "ph" none none 33300).late_minutes = 15 ∧
    (checkinUpdate wLoanInUse wStaff "ok" "ph" none none 33300).status = .returned := by
  have h := claim3_checkin_once.1 wStInUse "U" wLoanInUse wStaff "ok" "ph"
    none none 33300 (by decide) (by decide)
  exact ⟨h.1, by decide, h.2.1⟩

/-- Claim C4: every loan stored by the engine satisfies
`start_time < end_time` — creation rejects an equal or inverted window
with `ValidationError`, and both creation and every transition preserve
window well-formedness. -/
theorem claim4_window_wellformed :
    (∀ (st : EngineState) (req : LoanCreate) (bId : String) (jsa : Option String)
        (nId : String), req.end_time ≤ req.start_time →
      create_loan st req bId jsa nId = .error .ValidationError) ∧
    (∀ (st : EngineState) (req : LoanCreate) (bId : String) (jsa : Option String)
        (nId : String) (st' : EngineState), windowsOk st →
      create_loan st req bId jsa nId = .ok st' → windowsOk st') ∧
    (∀ (st : EngineState) (lid : String) (ev : LoanEvent) (st' : EngineState),
      windowsOk st → applyEvent st lid ev = .ok st' → windowsOk st') := by
  refine ⟨?_, ?_, ?_⟩
  · intro st req bId jsa nId h
    cases jsa with
    | none => rfl
    | some jpath => simp [create_loan, h]
  · intro st req bId jsa nId st' hw h
    obtain ⟨jpath, equip, -, hlt, -, -, rfl⟩ := create_loan_ok_shape h
    intro l hl
    rcases List.mem_cons.mp hl with rfl | hmem
    · simpa [newLoanOf] using hlt
    · exact hw l hmem
  · intro st lid ev st' hw h
    rcases applyEvent_ok_shape h with rfl | ⟨loan, act, nl, eu, hf, hs, rfl⟩
    · exact hw
    · obtain ⟨-, -, hstt, hend, -, -⟩ := stepLoan_ok_fields hs
      intro l' hl'
      rw [commit_loans] at hl'
      refine windowsOk_map ?_ hw l' hl'
      intro l
      by_cases hL : l = loan
      · subst hL
        simp only [if_pos rfl]
        exact ⟨hstt, hend⟩
      · simp [hL]

/-- Witness for C4: a request whose window is empty (start = end =
10:00) is rejected with `ValidationError`. -/
theorem claim4_witness :
    create_loan wSt0 wReqEq "u1" (some "jsa") "Z" = .error .ValidationError :=
  claim4_window_wellformed.1 wSt0 wReqEq "u1" (some "jsa") "Z" (by decide)

/-- Claim C5: the JSA justification document is mandatory — a creation
request without it fails with `ValidationError`, and every successful
creation stores a pending loan whose `jsa_pdf` is the supplied
document. -/
theorem claim5_jsa_required :
    (∀ (st : EngineState) (req : LoanCreate) (bId nId : String),
      create_loan st req bId none nId = .error .ValidationError) ∧
    (∀ (nId : String) (req : LoanCreate) (bId jpath labId : String),
      (newLoanOf nId req bId jpath labId).jsa_pdf = jpath ∧
      (newLoanOf nId req bId jpath labId).status = .pending) ∧
    (∀ (st : EngineState) (req : LoanCreate) (bId : String) (jsa : Option String)
        (nId : String) (st' : EngineState),
      create_loan st req bId jsa nId = .ok st' →
      ∃ jpath equip, jsa = some jpath ∧
        findEquip st req.equipment_id = some equip ∧
        st'.loans = newLoanOf nId req bId jpath equip.lab_id :: st.loans) := by
  refine ⟨fun st req bId nId => rfl, fun nId req bId jpath labId => ⟨rfl, rfl⟩, ?_⟩
  intro st req bId jsa nId st' h
  obtain ⟨jpath, equip, hj, -, hfe, -, rfl⟩ := create_loan_ok_shape h
  exact ⟨jpath, equip, hj, hfe, rfl⟩

/-- Witness for C5: the concrete creation of loan "A" with a supplied
JSA document succeeds and stores it on the pending loan. -/
theorem claim5_witness :
    ∃ jpath equip, (some "jsa" : Option String) = some jpath ∧
      findEquip wSt0 wReqA.equipment_id = some equip ∧
      wSt1.loans = newLoanOf "A" wReqA "u1" jpath equip.lab_id :: wSt0.loans :=
  claim5_jsa_required.2.2 wSt0 wReqA "u1" (some "jsa") "A" wSt1 (by decide)

/-- Claim C6: approval of a pending loan by an authorized approver sets
`approved_by` and routes on the equipment's `needs_head_approval` flag —
to `approved` when it is false, to `needs_head_approval` when it is
true; from `needs_head_approval` only a kepala_lab who heads the
equipment's lab can approve, which sets `head_approved_by` and moves the
loan to `approved`. -/
theorem claim6_approval_routing :
    (∀ (st : EngineState) (lid : String) (actor : User) (loan : Loan)
        (equip : Equipment),
      findLoan st lid = some loan → loan.status = .pending →
      canApprovePending actor loan = true →
      findEquip st loan.equipment_id = some equip →
      equip.needs_head_approval = false → overlapsOther st loan = false →
      applyEvent st lid (.approve actor) =
        .ok (commit st (some actor.id) "approve" loan
              { loan with status := .approved, approved_by := some actor.id }
              none)) ∧
    (∀ (st : EngineState) (lid : String) (actor : User) (loan : Loan)
        (equip : Equipment),
      findLoan st lid = some loan → loan.status = .pending →
      canApprovePending actor loan = true →
      findEquip st loan.equipment_id = some equip →
      equip.needs_head_approval = true → overlapsOther st loan = false →
      applyEvent st lid (.approve actor) =
        .ok (commit st (some actor.id) "approve" loan
              { loan with
                status := .needs_head_approval
                approved_by := some actor.id }
              none)) ∧
    (∀ (st : EngineState) (lid : String) (actor : User) (loan : Loan)
        (st' : EngineState),
      findLoan st lid = some loan → loan.status = .needs_head_approval →
      applyEvent st lid (.approve actor) = .ok st' →
      actor.role = .kepala_lab ∧
      ∃ equip, findEquip st loan.equipment_id = some equip ∧
        isLabHead st equip.lab_id actor = true) ∧
    (∀ (st : EngineState) (lid : String) (actor : User) (loan : Loan)
        (equip : Equipment),
      findLoan st lid = some loan → loan.status = .needs_head_approval →
      findEquip st loan.equipment_id = some equip →
      actor.role = .kepala_lab → isLabHead st equip.lab_id actor = true →
      overlapsOther st loan = false →
      applyEvent st lid (.approve actor) =
        .ok (commit st (some actor.id) "head_approve" loan
              { loan with
                status := .approved
                head_approved_by := some actor.id }
              none)) := by
  refine ⟨?_, ?_, ?_, ?_⟩
  · intro st lid actor loan equip hf hst hauth hfe hflag hov
    exact applyEvent_approve_pending_flagFalse hf hst hauth hfe hflag hov
  · intro st lid actor loan equip hf hst hauth hfe hflag hov
    exact applyEvent_approve_pending_flagTrue hf hst hauth hfe hflag hov
  · intro st lid actor loan st' hf hst h
    unfold applyEvent at h
    simp only [hf] at h
    cases hfe : findEquip st loan.equipment_id with
    | none =>
      have hs : stepLoan st loan (.approve actor) = .error .NotFound := by
        simp [stepLoan, hst, hfe]
      simp only [hs] at h
      exact Except.noConfusion h
    | some equip =>
      by_cases hcond :
          (actor.role == UserRole.kepala_lab && isLabHead st equip.lab_id actor) = true
      · rw [Bool.and_eq_true] at hcond
        exact ⟨by simpa using hcond.1, equip, rfl, hcond.2⟩
      · have hcf :
            (actor.role == UserRole.kepala_lab && isLabHead st equip.lab_id actor) = false := by
          cases hc : (actor.role == UserRole.kepala_lab && isLabHead st equip.lab_id actor)
          · rfl
          · exact absurd hc hcond
        have hs : stepLoan st loan (.approve actor) = .error .Unauthorized := by
          simp [stepLoan, hst, hfe, hcf]
        simp only [hs] at h
        exact Except.noConfusion h
  · intro st lid actor loan equip hf hst hfe hrole hhead hov
    exact applyEvent_approve_nha hf hst hfe hrole hhead hov

/-- Witness for C6: lab staff "S" approves pending loan "C" on
equipment "F" flagged `needs_head_approval` — the loan moves to
`needs_head_approval`, not `approved`. -/
theorem claim6_witness :
    applyEvent wStPendingF "C" (.approve wStaff) =
      .ok (commit wStPendingF (some "S") "approve" wLoanPendingF
            { wLoanPendingF with
              status := .needs_head_approval
              approved_by := some "S" }
            none) :=
  claim6_approval_routing.2.1 wStPendingF "C" wStaff wLoanPendingF wEqF
    (by decide) (by decide) (by decide) (by decide) (by decide) (by decide)

/-- Claim C7: `mark_late` on an `in_use` loan past its `end_time` moves
it to `late`; a repeated invocation is a no-op (idempotent); and checkin
from `late` behaves exactly as checkin from `in_use` — the same record
update and the same committed result. -/
theorem claim7_mark_late_idempotent :
    (∀ (st : EngineState) (lid : String) (loan : Loan) (now : Nat),
      findLoan st lid = some loan → loan.status = .in_use →
      loan.end_time < now →
      applyEvent st lid (.markLate now) =
        .ok (commit st none "mark_late" loan { loan with status := .late } none)) ∧
    (∀ (st : EngineState) (lid : String) (loan : Loan) (now : Nat),
      findLoan st lid = some loan → loan.status = .late →
      applyEvent st lid (.markLate now) = .ok st) ∧
    (∀ (st : EngineState) (lid : String) (loan : Loan) (now now' : Nat),
      findLoan st lid = some loan → loan.status = .in_use →
      loan.end_time < now →
      (applyEvent st lid (.markLate now)).bind
        (fun st2 => applyEvent st2 lid (.markLate now')) =
      applyEvent st lid (.markLate now)) ∧
    (∀ (loan : Loan) (actor : User) (cond photo : String) (dmg : Option String)
        (dc : Option Int) (now : Nat),
      checkinUpdate { loan with status := LoanStatus.late } actor cond photo dmg dc now =
      checkinUpdate { loan with status := LoanStatus.in_use } actor cond photo dmg dc now) ∧
    (∀ (st : EngineState) (lid : String) (loan : Loan) (actor : User)
        (cond photo : String) (dmg : Option String) (dc : Option Int) (now : Nat),
      findLoan st lid = some loan → loan.status = .late →
      applyEvent st lid (.checkin actor cond photo dmg dc now) =
        .ok (commit st (some actor.id) "checkin" loan
              (checkinUpdate loan actor cond photo dmg dc now)
              (some (loan.equipment_id, .available)))) := by
  refine ⟨?_, ?_, ?_, ?_, ?_⟩
  · intro st lid loan now hf hst hlt
    exact applyEvent_markLate_inUse hf hst hlt
  · intro st lid loan now hf hst
    exact applyEvent_markLate_late hf hst
  · intro st lid loan now now' hf hst hlt
    rw [applyEvent_markLate_inUse hf hst hlt]
    simp only [Except.bind]
    exact applyEvent_markLate_late (findLoan_commit hf rfl) rfl
  · intro loan actor cond photo dmg dc now
    rfl
  · intro st lid loan actor cond photo dmg dc now hf hst
    exact applyEvent_checkin_late hf hst

/-- Witness for C7: mark_late at 09:10 moves the in_use loan "U"
(end 09:00) to `late`, and a second mark_late at 09:20 is a no-op. -/
theorem claim7_witness :
    (applyEvent wStInUse "U" (.markLate 33000)).bind
      (fun st2 => applyEvent st2 "U" (.markLate 33600)) =
    applyEvent wStInUse "U" (.markLate 33000) :=
  claim7_mark_late_idempotent.2.2.1 wStInUse "U" wLoanInUse 33000 33600
    (by decide) (by decide) (by decide)

/-- Claim C8: transitions never partially apply — in this embedding a
failed transition returns only the error and no state, and every
successful call either is the idempotent no-op or commits, atomically in
one record, the loan update, the optional equipment update and exactly
one AuditLog entry carrying the actor, the action name, the loan id and
the old/new status payload; creation likewise stores the loan together
with exactly one audit record. -/
theorem claim8_atomic_audit :
    (∀ (st : EngineState) (lid : String) (ev : LoanEvent) (st' : EngineState),
      applyEvent st lid ev = .ok st' →
      st' = st ∨
      ∃ loan act nl eu, findLoan st lid = some loan ∧
        st' = commit st (eventActorId ev) act loan nl eu ∧
        st'.audit =
          { user_id := eventActorId ev
            action := act
            entity := "Loan"
            entity_id := some loan.id
            detail_old := some loan.status
            detail_new := nl.status } :: st.audit) ∧
    (∀ (st : EngineState) (req : LoanCreate) (bId : String) (jsa : Option String)
        (nId : String) (st' : EngineState),
      create_loan st req bId jsa nId = .ok st' →
      ∃ jpath equip, jsa = some jpath ∧
        findEquip st req.equipment_id = some equip ∧
        st'.loans = newLoanOf nId req bId jpath equip.lab_id :: st.loans ∧
        st'.audit =
          { user_id := some bId
            action := "create"
            entity := "Loan"
            entity_id := some nId
            detail_old := none
            detail_new := .pending } :: st.audit) := by
  constructor
  · intro st lid ev st' h
    rcases applyEvent_ok_shape h with rfl | ⟨loan, act, nl, eu, hf, hs, rfl⟩
    · exact .inl rfl
    · exact .inr ⟨loan, act, nl, eu, hf, rfl, rfl⟩
  · intro st req bId jsa nId st' h
    obtain ⟨jpath, equip, hj, -, hfe, -, rfl⟩ := create_loan_ok_shape h
    exact ⟨jpath, equip, hj, hfe, rfl, rfl⟩

/-- Witness for C8: the successful mark_late transition of loan "U"
commits atomically and appends exactly one audit record. -/
theorem claim8_witness :
    wStLate = wStInUse ∨
    ∃ loan act nl eu, findLoan wStInUse "U" = some loan ∧
      wStLate = commit wStInUse (eventActorId (.markLate 33000)) act loan nl eu ∧
      wStLate.audit =
        { user_id := eventActorId (.markLate 33000)
          action := act
          entity := "Loan"
          entity_id := some loan.id
          detail_old := some loan.status
          detail_new := nl.status } :: wStInUse.audit :=
  claim8_atomic_audit.1 wStInUse "U" (.markLate 33000) wStLate (by decide)

/-- Witness for C10 at concrete labs: capacity 5 is accepted and bounds
below by 1; capacity 0 is rejected by all three schemas. -/
theorem claim10_witness :
    1 ≤ wLab.capacity ∧ wLabZero.accepted = false ∧
    wLabCreateZero.accepted = false ∧ wLabUpdateZero.accepted = false :=
  ⟨claim10_capacity_ge_one.1 wLab (by decide),
   claim10_capacity_ge_one.2.1 wLabZero (by decide),
   claim10_capacity_ge_one.2.2.2.1 wLabCreateZero (by decide),
   claim10_capacity_ge_one.2.2.2.2.2 wLabUpdateZero 0 (by decide) (by decide)⟩

end ChemLab
